import Mathlib

/-!
Verification model of `partisan_plot.py`.

The file embeds the data model and the computations of the `PartisanPlot`
class as executable Lean definitions and proves the stated properties of
the per-year seat/margin pipeline of `draw`, of the `sign` helper, of the
default-argument handling, and of `drop_columns`.

Modelling conventions:
* Vote counts are natural numbers and all share arithmetic is carried out
  in `ℚ`.  Python's float arithmetic is idealised by exact rationals; the
  data never has a zero `totalvotes`, so the `ℚ` convention `x / 0 = 0`
  in `rowShare` is never exercised on real inputs.
* Fallible steps of `draw` (Python exceptions) are surfaced as values of
  `DrawError`, raised at the same program point as in the source.
* The plotting library only receives the numeric series; a drawn curve is
  therefore represented by the record `YearCurve` of everything `draw`
  passes to `axes.step`, `axes.scatter` and the legend for one year.
-/

namespace Partisan

/-- A row of the results table `house_data` (one candidate in one district
in one year), keeping exactly the columns `draw` reads. -/
structure Row where
  year : Int
  state_po : String
  district : Nat
  party : String
  candidatevotes : Nat
  totalvotes : Nat
deriving DecidableEq

/-- The exceptions the body of `draw` can raise, in source order:
`unknownState` is the `KeyError` from `self.num_districts[state]`,
`badDistrict` the `KeyError` from `vote_share.loc[district, party]` when a
row's district is outside `1..D` (or its party is not a column),
`zeroDivision` the `ZeroDivisionError` from the `actual_margin` quotient
when the two-party vote total is zero, `noMajority` the `KeyError` from
`value_counts()[True]` when no district has a democratic share `≥` the
republican one, and `missingColor` the `KeyError` from
`self.colors[year]`. -/
inductive DrawError
  | unknownState
  | badDistrict
  | zeroDivision
  | noMajority
  | missingColor
deriving DecidableEq

/-- Everything `draw` hands to the chart surface for one year: the sorted
clipped margin sequence and the seat-share sequence given to `axes.step`,
the legend label, the marker data given to `axes.scatter`
(`actualMargin`, `demSeats`) and the year's color. -/
structure YearCurve where
  sortedMargins : List ℚ
  percentSeatsWon : List ℚ
  partisanBias : ℚ
  label : String
  actualMargin : ℚ
  demSeats : Nat
  color : String
deriving DecidableEq

/-- The in-memory state built by the constructor: the results table and
the three configuration series.  `colors` is aligned positionally with
`years` (the source sets `self.colors.index = self.years`). -/
structure PartisanPlot where
  house_data : List Row
  num_districts : List (String × Nat)
  years : List Int
  colors : List String

/-- The two-party share one row contributes:
`candidate['candidatevotes'] / candidate['totalvotes']`. -/
def rowShare (r : Row) : ℚ :=
  (r.candidatevotes : ℚ) / (r.totalvotes : ℚ)

/-- The row filter of `draw`: rows of the given year and state whose party
is `republican` or `democrat` (source lines 133-137). -/
def filterRows (hd : List Row) (state : String) (year : Int) : List Row :=
  hd.filter fun r =>
    r.year == year && r.state_po == state &&
      (r.party == "republican" || r.party == "democrat")

/-- One iteration of the candidate loop (source lines 146-154).  The state
is the `vote_share` table (cell `i` holds the accumulated democratic and
republican shares of district `i+1`) together with the running
`dem_votes` and `rep_votes` sums.  The `.loc[district, party]` update
reads the cell before adding, and raises (`none`) when the district label
is outside the index `1..D` or the party is not one of the two share
columns. -/
def stepRow (D : Nat) (st : List (ℚ × ℚ) × Nat × Nat) (r : Row) :
    Option (List (ℚ × ℚ) × Nat × Nat) :=
  if 1 ≤ r.district ∧ r.district ≤ D then
    let cell := st.1.getD (r.district - 1) (0, 0)
    if r.party = "democrat" then
      some (st.1.set (r.district - 1) (cell.1 + rowShare r, cell.2),
        st.2.1 + r.candidatevotes, st.2.2)
    else if r.party = "republican" then
      some (st.1.set (r.district - 1) (cell.1, cell.2 + rowShare r),
        st.2.1, st.2.2 + r.candidatevotes)
    else none
  else none

/-- The whole candidate loop, starting from the all-zeros `vote_share`
table of size `D` (source lines 138-154). -/
def voteTally (D : Nat) (rows : List Row) :
    Option (List (ℚ × ℚ) × Nat × Nat) :=
  rows.foldlM (stepRow D) (List.replicate D ((0 : ℚ), (0 : ℚ)), 0, 0)

/-- Raw democratic vote total of a row list, stated directly on the rows
(the value `dem_votes` holds after the loop). -/
def demVotes (rows : List Row) : Nat :=
  ((rows.filter fun r => r.party == "democrat").map
    fun r => r.candidatevotes).sum

/-- Raw republican vote total of a row list. -/
def repVotes (rows : List Row) : Nat :=
  ((rows.filter fun r => r.party == "republican").map
    fun r => r.candidatevotes).sum

/-- Democratic two-party share of district `d`, stated directly on the
rows: the sum of `candidatevotes / totalvotes` over the democratic rows
of that district. -/
def demShare (rows : List Row) (d : Nat) : ℚ :=
  ((rows.filter fun r => r.district == d && r.party == "democrat").map
    rowShare).sum

/-- Republican two-party share of district `d`, stated directly on the
rows. -/
def repShare (rows : List Row) (d : Nat) : ℚ :=
  ((rows.filter fun r => r.district == d && r.party == "republican").map
    rowShare).sum

/-- Specification-level seat count: the number of districts `1..D` whose
democratic share is at least the republican one (ties are democratic
wins). -/
def demSeatsSpec (rows : List Row) (D : Nat) : Nat :=
  ((List.range D).filter fun i =>
    decide (repShare rows (i + 1) ≤ demShare rows (i + 1))).length

/-- Clipping to `[-1, 1]`, the effect of `.clip(-1, 1)` on one value. -/
def clip1 (m : ℚ) : ℚ := max (-1) (min 1 m)

/-- The margin sequence before sorting, in encounter order: one
extrapolated margin `republican share - democratic share + actual_margin`
per district `1..D`, then the two sentinel values `-1` and `1` of
`extrema`, everything clipped to `[-1, 1]` (source lines 158-162). -/
def combinedMargins (vs : List (ℚ × ℚ)) (am : ℚ) : List ℚ :=
  ((vs.map fun cc => cc.2 - cc.1 + am) ++ [(-1 : ℚ), 1]).map clip1

/-- The sorted margin sequence (`sort_values`, source line 163).  Only the
value sequence is observable downstream, and any correct sort of the same
multiset yields the same value sequence, so a stable insertion sort
stands in for the library sort. -/
def extrapolatedSorted (vs : List (ℚ × ℚ)) (am : ℚ) : List ℚ :=
  List.insertionSort (· ≤ ·) (combinedMargins vs am)

/-- The statewide actual margin `(dem_votes - rep_votes) / (dem_votes +
rep_votes)` (source line 156); only evaluated after the zero-total check
of `processVotes`. -/
def actualMarginQ (dv rv : Nat) : ℚ :=
  ((dv : ℚ) - (rv : ℚ)) / ((dv : ℚ) + (rv : ℚ))

/-- The `partisan_bias` loop (source lines 175-180): for each position the
bias `(seats - 1) / D - 0.5` is assigned, and the loop breaks at the
first margin `≥ 0`.  `acc` is the value the variable holds from the
previous iteration; the list is never empty where this is called (it
always holds the two sentinels). -/
def partisanBiasScan (D : Nat) : Nat → List ℚ → ℚ → ℚ
  | _, [], acc => acc
  | i, m :: rest, _ =>
    let b : ℚ := ((i : ℚ) - 1) / (D : ℚ) - 1 / 2
    if 0 ≤ m then b else partisanBiasScan D (i + 1) rest b

/-- The static method `sign`: the decimal string of `num`, prefixed with
`+` unless `num` is negative. -/
def sign (num : Int) : String :=
  if num < 0 then toString num else "+" ++ toString num

/-- Python's built-in `round` on an exact rational: round half to even. -/
def pyRound (q : ℚ) : Int :=
  let f := q.floor
  if q - (f : ℚ) < 1 / 2 then f
  else if (1 : ℚ) / 2 < q - (f : ℚ) then f + 1
  else if f % 2 = 0 then f else f + 1

/-- The curve record `draw` emits for one year once every check has
passed (source lines 158-197). -/
def mkCurve (D : Nat) (year : Int) (col : String) (vs : List (ℚ × ℚ))
    (dv rv : Nat) : YearCurve :=
  let am := actualMarginQ dv rv
  let sorted := extrapolatedSorted vs am
  let bias := partisanBiasScan D 0 sorted 0
  { sortedMargins := sorted
    percentSeatsWon :=
      (List.range (D + 1) ++ [D]).map fun s => (s : ℚ) / (D : ℚ)
    partisanBias := bias
    label := toString year ++ "; D" ++ sign (pyRound (bias * 100)) ++
      " partisan bias"
    actualMargin := am
    demSeats := (vs.filter fun cc => decide (cc.2 ≤ cc.1)).length
    color := col }

/-- The tail of one year iteration, after the vote tally: the
`value_counts()[True]` lookup raises `noMajority` when no district
qualifies (source lines 165-167), and the color lookup `self.colors[year]`
raises when the year has no color (source line 188). -/
def finishCurve (D : Nat) (year : Int) (yearColors : List (Int × String))
    (vs : List (ℚ × ℚ)) (dv rv : Nat) : Except DrawError YearCurve :=
  if (vs.filter fun cc => decide (cc.2 ≤ cc.1)).length = 0 then
    .error .noMajority
  else
    match List.lookup year yearColors with
    | none => .error .missingColor
    | some col => .ok (mkCurve D year col vs dv rv)

/-- One year iteration after the district-count lookup: run the candidate
loop, raise `zeroDivision` when the two-party total is zero (the
`actual_margin` quotient, source line 156), then finish the curve. -/
def processVotes (D : Nat) (year : Int) (yearColors : List (Int × String))
    (rows : List Row) : Except DrawError YearCurve :=
  match voteTally D rows with
  | none => .error .badDistrict
  | some (vs, dv, rv) =>
    if dv + rv = 0 then .error .zeroDivision
    else finishCurve D year yearColors vs dv rv

/-- One full year iteration of `draw`: filter the rows, look the state up
in `num_districts` (the first access is inside the loop body, source line
139), then process the votes. -/
def drawYear (nd : List (String × Nat)) (hd : List Row)
    (yearColors : List (Int × String)) (state : String) (year : Int) :
    Except DrawError YearCurve :=
  let rows := filterRows hd state year
  match List.lookup state nd with
  | none => .error .unknownState
  | some D => processVotes D year yearColors rows

/-- The year loop of `draw`: curves are drawn in `years` order and the
first exception aborts the call, so the result is the list of curves
drawn before the failure point together with the error, if any. -/
def drawYears (nd : List (String × Nat)) (hd : List Row)
    (yearColors : List (Int × String)) (state : String) :
    List Int → List YearCurve × Option DrawError
  | [] => ([], none)
  | y :: ys =>
    match drawYear nd hd yearColors state y with
    | .error e => ([], some e)
    | .ok c =>
      match drawYears nd hd yearColors state ys with
      | (cs, err) => (c :: cs, err)

/-- A whole `draw(state, ...)` call, as far as the numeric output is
concerned: iterate the years with the year-to-color association built in
the constructor. -/
def draw (p : PartisanPlot) (state : String) :
    List YearCurve × Option DrawError :=
  drawYears p.num_districts p.house_data (p.years.zip p.colors) state
    p.years

/-- One entry of the `default_draw_values` list: the style option values
are strings or numbers. -/
inductive Param
  | str (s : String)
  | num (q : ℚ)
deriving DecidableEq

/-- The class attribute `default_draw_values = ['k', 200, '-', 0.2, 0.6,
11]`: grid color, marker size, grid line style, grid line width, step
opacity, y-tick count. -/
def default_draw_values : List Param :=
  [.str "k", .num 200, .str "-", .num 0.2, .num 0.6, .num 11]

/-- The mutable store a `draw` call reads its defaults from (the class
attribute as seen through `self`). -/
structure PlotDefaults where
  defaultDrawValues : List Param
deriving DecidableEq

/-- `__draw_default_parameters`: each argument passed as `None` is
replaced by the stored default at the same position; arguments given
explicitly are kept. -/
def draw_default_parameters (defaults : List Param)
    (params : List (Option Param)) : List Param :=
  (params.zip defaults).map fun pd => pd.1.getD pd.2

/-- The interaction of one `draw` call with the stored defaults: the body
reads `self.default_draw_values` inside `__draw_default_parameters`
(which writes only into the fresh per-call argument list, source lines
200-212) and contains no assignment to the attribute, so the call
resolves its options against the store and returns the store unchanged. -/
def drawResolve (st : PlotDefaults) (opts : List (Option Param)) :
    List Param × PlotDefaults :=
  (draw_default_parameters st.defaultDrawValues opts, st)

/-- The results table as `drop_columns` sees it: its column index. -/
structure HouseTable where
  cols : List String
deriving DecidableEq

/-- Models `pandas.Index.drop` with the default `errors='raise'`: the new
column index is only built after every label has been validated, and a
single missing label raises (`none`) before anything is dropped. -/
def indexDrop (cols labels : List String) : Option (List String) :=
  if labels.all fun l => cols.contains l then
    some (cols.filter fun cc => !(labels.contains cc))
  else none

/-- `drop_columns` (source lines 60-64): `DataFrame.drop(labels,
inplace=True, axis=1)` first computes the new index via `indexDrop` and
only then updates the frame in place, so on a missing label the table is
returned unchanged together with the raised flag. -/
def drop_columns (t : HouseTable) (labels : List String) :
    HouseTable × Bool :=
  match indexDrop t.cols labels with
  | some cs => (⟨cs⟩, false)
  | none => (t, true)

/-- Concrete dataset used by the witnesses: the two-district example of
the specification (democratic shares `0.6, 0.4`, republican shares
`0.4, 0.6`, actual margin `0`). -/
def exRows : List Row :=
  [⟨1976, "CA", 1, "democrat", 60, 100⟩,
   ⟨1976, "CA", 1, "republican", 40, 100⟩,
   ⟨1976, "CA", 2, "democrat", 40, 100⟩,
   ⟨1976, "CA", 2, "republican", 60, 100⟩]

/-- District-count configuration of the witness dataset. -/
def exNd : List (String × Nat) := [("CA", 2)]

/-- Year-to-color association of the witness dataset. -/
def exColors : List (Int × String) := [(1976, "red")]

/-- The curve `draw` computes on the witness dataset. -/
def exCurve : YearCurve :=
  { sortedMargins := [-1, -1/5, 1/5, 1]
    percentSeatsWon := [0, 1/2, 1, 1]
    partisanBias := 0
    label := "1976; D+0 partisan bias"
    actualMargin := 0
    demSeats := 1
    color := "red" }

/-- A dataset whose filtered rows are empty for the requested state and
year, used by the zero-total witness. -/
def exNdTx : List (String × Nat) := [("TX", 1)]

/-- Rows covering only district 1 of a two-district state: district 2 has
no candidate row at all. -/
def exRowsOne : List Row :=
  [⟨1977, "CA", 1, "democrat", 60, 100⟩,
   ⟨1977, "CA", 1, "republican", 40, 100⟩]

/-- Year-to-color association for the one-district-of-data dataset. -/
def exColorsB : List (Int × String) := [(1977, "blue")]

/-- A plot object whose years file is empty. -/
def exPlotNoYears : PartisanPlot :=
  { house_data := exRows
    num_districts := exNd
    years := []
    colors := [] }

/-- A plot object with one year to render. -/
def exPlotYears : PartisanPlot :=
  { house_data := exRows
    num_districts := exNd
    years := [1976]
    colors := ["red"] }

/-- A results table with two columns, for the column-drop witness. -/
def exTable : HouseTable := ⟨["year", "state_po"]⟩

/-- The curve `draw` computes on the one-district-of-data dataset: the
data-less district 2 keeps zero shares and counts as a democratic seat. -/
def exCurveB : YearCurve :=
  { sortedMargins := [-1, 0, 1/5, 1]
    percentSeatsWon := [0, 1/2, 1, 1]
    partisanBias := -(1/2)
    label := "1977; D-50 partisan bias"
    actualMargin := 1/5
    demSeats := 2
    color := "blue" }

end Partisan

namespace Partisan

theorem clip1_mem_bounds (m : ℚ) : -1 ≤ clip1 m ∧ clip1 m ≤ 1 := by
  constructor
  · exact le_max_left _ _
  · exact max_le (by norm_num) (min_le_left _ _)

theorem clip1_neg_one : clip1 (-1) = -1 := by
  unfold clip1
  rw [min_eq_right (by norm_num : (-1 : ℚ) ≤ 1), max_self]

theorem clip1_one : clip1 1 = 1 := by
  unfold clip1
  rw [min_self, max_eq_right (by norm_num : (-1 : ℚ) ≤ 1)]

theorem combinedMargins_length (vs : List (ℚ × ℚ)) (am : ℚ) :
    (combinedMargins vs am).length = vs.length + 2 := by
  simp [combinedMargins]

theorem mem_combinedMargins_bounds (vs : List (ℚ × ℚ)) (am : ℚ) :
    ∀ m ∈ combinedMargins vs am, -1 ≤ m ∧ m ≤ 1 := by
  intro m hm
  rcases List.mem_map.mp hm with ⟨a, _, rfl⟩
  exact clip1_mem_bounds a

theorem neg_one_mem_combinedMargins (vs : List (ℚ × ℚ)) (am : ℚ) :
    (-1 : ℚ) ∈ combinedMargins vs am := by
  refine List.mem_map.mpr ⟨-1, ?_, clip1_neg_one⟩
  exact List.mem_append.mpr (Or.inr (by simp))

theorem one_mem_combinedMargins (vs : List (ℚ × ℚ)) (am : ℚ) :
    (1 : ℚ) ∈ combinedMargins vs am := by
  refine List.mem_map.mpr ⟨1, ?_, clip1_one⟩
  exact List.mem_append.mpr (Or.inr (by simp))

theorem extrapolatedSorted_sorted (vs : List (ℚ × ℚ)) (am : ℚ) :
    (extrapolatedSorted vs am).Sorted (· ≤ ·) :=
  List.sorted_insertionSort _ _

theorem extrapolatedSorted_perm (vs : List (ℚ × ℚ)) (am : ℚ) :
    (extrapolatedSorted vs am).Perm (combinedMargins vs am) :=
  List.perm_insertionSort _ _

theorem extrapolatedSorted_length (vs : List (ℚ × ℚ)) (am : ℚ) :
    (extrapolatedSorted vs am).length = vs.length + 2 := by
  rw [(extrapolatedSorted_perm vs am).length_eq, combinedMargins_length]

theorem mem_extrapolatedSorted_bounds (vs : List (ℚ × ℚ)) (am : ℚ) :
    ∀ m ∈ extrapolatedSorted vs am, -1 ≤ m ∧ m ≤ 1 := by
  intro m hm
  exact mem_combinedMargins_bounds vs am m
    ((extrapolatedSorted_perm vs am).subset hm)

theorem neg_one_mem_extrapolatedSorted (vs : List (ℚ × ℚ)) (am : ℚ) :
    (-1 : ℚ) ∈ extrapolatedSorted vs am :=
  ((extrapolatedSorted_perm vs am).mem_iff).mpr
    (neg_one_mem_combinedMargins vs am)

theorem one_mem_extrapolatedSorted (vs : List (ℚ × ℚ)) (am : ℚ) :
    (1 : ℚ) ∈ extrapolatedSorted vs am :=
  ((extrapolatedSorted_perm vs am).mem_iff).mpr
    (one_mem_combinedMargins vs am)

theorem sorted_head_eq_min {l : List ℚ} {a : ℚ}
    (hs : l.Sorted (· ≤ ·)) (ha : a ∈ l) (hlb : ∀ x ∈ l, a ≤ x) :
    l.head? = some a := by
  cases l with
  | nil => cases ha
  | cons b t =>
    have hba : b ≤ a ∨ b = a := by
      rcases List.mem_cons.mp ha with h | hat
      · exact Or.inr h.symm
      · exact Or.inl ((List.sorted_cons.mp hs).1 a hat)
    have hab : a ≤ b := hlb b (by simp)
    have : b = a := by
      rcases hba with h | h
      · exact le_antisymm h hab
      · exact h
    simp [this]

theorem sorted_getLast_eq_max {l : List ℚ} {a : ℚ}
    (hs : l.Sorted (· ≤ ·)) (ha : a ∈ l) (hub : ∀ x ∈ l, x ≤ a) :
    l.getLast? = some a := by
  induction l with
  | nil => cases ha
  | cons b t ih =>
    cases t with
    | nil =>
      rcases List.mem_cons.mp ha with h | hat
      · simp [h]
      · cases hat
    | cons cc t2 =>
      have hsort := List.sorted_cons.mp hs
      have hmem : a ∈ cc :: t2 := by
        rcases List.mem_cons.mp ha with h | hat
        · have hca : cc ≤ a := hub cc (by simp)
          have hac : a ≤ cc := by
            rw [h]; exact hsort.1 cc (by simp)
          have : cc = a := le_antisymm hca hac
          rw [← this]; simp
        · exact hat
      have := ih hsort.2 hmem (fun x hx => hub x (List.mem_cons_of_mem b hx))
      rw [List.getLast?_cons_cons]
      exact this

theorem extrapolatedSorted_head (vs : List (ℚ × ℚ)) (am : ℚ) :
    (extrapolatedSorted vs am).head? = some (-1) :=
  sorted_head_eq_min (extrapolatedSorted_sorted vs am)
    (neg_one_mem_extrapolatedSorted vs am)
    (fun x hx => (mem_extrapolatedSorted_bounds vs am x hx).1)

theorem extrapolatedSorted_getLast (vs : List (ℚ × ℚ)) (am : ℚ) :
    (extrapolatedSorted vs am).getLast? = some 1 :=
  sorted_getLast_eq_max (extrapolatedSorted_sorted vs am)
    (one_mem_extrapolatedSorted vs am)
    (fun x hx => (mem_extrapolatedSorted_bounds vs am x hx).2)

theorem partisanBiasScan_eq_findIdx (D : Nat) :
    ∀ (l : List ℚ) (i : Nat) (acc : ℚ), (∃ m ∈ l, 0 ≤ m) →
      partisanBiasScan D i l acc =
        (((i + l.findIdx fun m => decide (0 ≤ m)) : ℚ) - 1) / (D : ℚ) -
          1 / 2 := by
  intro l
  induction l with
  | nil => intro i acc h; rcases h with ⟨m, hm, _⟩; cases hm
  | cons m rest ih =>
    intro i acc h
    by_cases hm : 0 ≤ m
    · simp only [partisanBiasScan, if_pos hm, List.findIdx_cons,
        decide_eq_true hm, cond_true]
      norm_num
    · have hrest : ∃ x ∈ rest, 0 ≤ x := by
        rcases h with ⟨x, hx, hx0⟩
        rcases hx with _ | hxr
        · exact absurd hx0 hm
        · exact ⟨x, by assumption, hx0⟩
      simp only [partisanBiasScan, if_neg hm, List.findIdx_cons,
        decide_eq_false hm, cond_false]
      rw [ih (i + 1) _ hrest]
      push_cast
      ring_nf

end Partisan

namespace Partisan

theorem demVotes_cons (r : Row) (rest : List Row) :
    demVotes (r :: rest) =
      (if r.party = "democrat" then r.candidatevotes else 0) +
        demVotes rest := by
  unfold demVotes
  rw [List.filter_cons]
  by_cases hp : r.party = "democrat" <;> simp [hp]

theorem repVotes_cons (r : Row) (rest : List Row) :
    repVotes (r :: rest) =
      (if r.party = "republican" then r.candidatevotes else 0) +
        repVotes rest := by
  unfold repVotes
  rw [List.filter_cons]
  by_cases hp : r.party = "republican" <;> simp [hp]

theorem demShare_cons (r : Row) (rest : List Row) (d : Nat) :
    demShare (r :: rest) d =
      (if r.district = d ∧ r.party = "democrat" then rowShare r else 0) +
        demShare rest d := by
  unfold demShare
  rw [List.filter_cons]
  by_cases hp : r.district = d ∧ r.party = "democrat"
  · simp [hp.1, hp.2]
  · rw [if_neg ?_, if_neg hp]
    · ring_nf
    · simp only [Bool.and_eq_true, beq_iff_eq]
      exact fun hc => hp hc

theorem repShare_cons (r : Row) (rest : List Row) (d : Nat) :
    repShare (r :: rest) d =
      (if r.district = d ∧ r.party = "republican" then rowShare r else 0) +
        repShare rest d := by
  unfold repShare
  rw [List.filter_cons]
  by_cases hp : r.district = d ∧ r.party = "republican"
  · simp [hp.1, hp.2]
  · rw [if_neg ?_, if_neg hp]
    · ring_nf
    · simp only [Bool.and_eq_true, beq_iff_eq]
      exact fun hc => hp hc

theorem stepRow_some {D : Nat} {st st' : List (ℚ × ℚ) × Nat × Nat}
    {r : Row} (h : stepRow D st r = some st') :
    st'.1.length = st.1.length ∧
    st'.2.1 = st.2.1 +
      (if r.party = "democrat" then r.candidatevotes else 0) ∧
    st'.2.2 = st.2.2 +
      (if r.party = "republican" then r.candidatevotes else 0) ∧
    ∀ d : Nat, 1 ≤ d →
      st'.1[d-1]? = (st.1[d-1]?).map fun cell =>
        (cell.1 +
          (if r.district = d ∧ r.party = "democrat" then rowShare r else 0),
         cell.2 +
          (if r.district = d ∧ r.party = "republican" then rowShare r
            else 0)) := by
  unfold stepRow at h
  by_cases hrange : 1 ≤ r.district ∧ r.district ≤ D
  case neg => rw [if_neg hrange] at h; cases h
  rw [if_pos hrange] at h
  by_cases hdem : r.party = "democrat"
  · rw [if_pos hdem] at h
    have hst := Option.some.inj h
    subst hst
    have hner : r.party ≠ "republican" := by rw [hdem]; decide
    refine ⟨List.length_set .., by simp [hdem], by simp [hner], ?_⟩
    intro d hd1
    by_cases hdist : r.district = d
    · by_cases hlt : d - 1 < st.1.length
      · have hget : st.1[d-1]? = some (st.1.getD (d-1) (0, 0)) := by
          rw [List.getD_eq_getElem?_getD, List.getElem?_eq_getElem hlt]
          rfl
        simp only [List.getElem?_set, hdist, if_pos, hlt, hget,
          Option.map_some]
        simp [hdem, hdist, hner]
      · have hnone : st.1[d-1]? = none := by
          rw [List.getElem?_eq_none_iff]; omega
        simp only [List.getElem?_set, hdist, if_pos, hlt, if_false, hnone,
          Option.map_none]
        simp
    · have hne : r.district - 1 ≠ d - 1 := by omega
      rw [List.getElem?_set, if_neg hne]
      have h1 : ¬(r.district = d ∧ r.party = "democrat") :=
        fun hc => hdist hc.1
      have h2 : ¬(r.district = d ∧ r.party = "republican") :=
        fun hc => hdist hc.1
      rw [if_neg h1, if_neg h2]
      cases st.1[d-1]? <;> simp
  · rw [if_neg hdem] at h
    by_cases hrep : r.party = "republican"
    case neg => rw [if_neg hrep] at h; cases h
    rw [if_pos hrep] at h
    have hst := Option.some.inj h
    subst hst
    refine ⟨List.length_set .., by simp [hdem], by simp [hrep], ?_⟩
    intro d hd1
    by_cases hdist : r.district = d
    · by_cases hlt : d - 1 < st.1.length
      · have hget : st.1[d-1]? = some (st.1.getD (d-1) (0, 0)) := by
          rw [List.getD_eq_getElem?_getD, List.getElem?_eq_getElem hlt]
          rfl
        simp only [List.getElem?_set, hdist, if_pos, hlt, hget,
          Option.map_some]
        simp [hdem, hdist, hrep]
      · have hnone : st.1[d-1]? = none := by
          rw [List.getElem?_eq_none_iff]; omega
        simp only [List.getElem?_set, hdist, if_pos, hlt, if_false, hnone,
          Option.map_none]
        simp
    · have hne : r.district - 1 ≠ d - 1 := by omega
      rw [List.getElem?_set, if_neg hne]
      have h1 : ¬(r.district = d ∧ r.party = "democrat") :=
        fun hc => hdist hc.1
      have h2 : ¬(r.district = d ∧ r.party = "republican") :=
        fun hc => hdist hc.1
      rw [if_neg h1, if_neg h2]
      cases st.1[d-1]? <;> simp

theorem foldl_tally {D : Nat} :
    ∀ (rows : List Row) (st st' : List (ℚ × ℚ) × Nat × Nat),
      rows.foldlM (stepRow D) st = some st' →
      st'.1.length = st.1.length ∧
      st'.2.1 = st.2.1 + demVotes rows ∧
      st'.2.2 = st.2.2 + repVotes rows ∧
      ∀ d : Nat, 1 ≤ d →
        st'.1[d-1]? = (st.1[d-1]?).map fun cell =>
          (cell.1 + demShare rows d, cell.2 + repShare rows d) := by
  intro rows
  induction rows with
  | nil =>
    intro st st' h
    have hst : st = st' := by simpa using h
    subst hst
    refine ⟨rfl, by simp [demVotes], by simp [repVotes], ?_⟩
    intro d _
    simp only [demShare, repShare, List.filter_nil, List.map_nil,
      List.sum_nil, add_zero]
    cases st.1[d-1]? <;> simp
  | cons r rest ih =>
    intro st st' h
    rw [List.foldlM_cons] at h
    cases hstep : stepRow D st r with
    | none => rw [hstep] at h; cases h
    | some st1 =>
      rw [hstep] at h
      have h' : rest.foldlM (stepRow D) st1 = some st' := h
      obtain ⟨hlen1, hdv1, hrv1, hcell1⟩ := stepRow_some hstep
      obtain ⟨hlen2, hdv2, hrv2, hcell2⟩ := ih st1 st' h'
      refine ⟨hlen2.trans hlen1, ?_, ?_, ?_⟩
      · rw [hdv2, hdv1, demVotes_cons, Nat.add_assoc]
      · rw [hrv2, hrv1, repVotes_cons, Nat.add_assoc]
      · intro d hd1
        rw [hcell2 d hd1, hcell1 d hd1, Option.map_map]
        cases st.1[d-1]? with
        | none => simp
        | some cell =>
          simp only [Option.map_some', Function.comp_apply]
          rw [demShare_cons, repShare_cons]
          ring_nf

theorem voteTally_parts {D : Nat} {rows : List Row} {vs : List (ℚ × ℚ)}
    {dv rv : Nat} (h : voteTally D rows = some (vs, dv, rv)) :
    vs.length = D ∧ dv = demVotes rows ∧ rv = repVotes rows ∧
    ∀ d : Nat, 1 ≤ d → d ≤ D →
      vs[d-1]? = some (demShare rows d, repShare rows d) := by
  obtain ⟨h1, h2, h3, h4⟩ := foldl_tally rows _ _ h
  refine ⟨by simpa using h1, by simpa using h2, by simpa using h3, ?_⟩
  intro d hd1 hdD
  have hrep : (List.replicate D ((0 : ℚ), (0 : ℚ)))[d-1]? =
      some ((0 : ℚ), (0 : ℚ)) := by
    rw [List.getElem?_replicate, if_pos (by omega)]
  have := h4 d hd1
  rw [hrep] at this
  simpa using this

theorem voteTally_vs_eq {D : Nat} {rows : List Row} {vs : List (ℚ × ℚ)}
    {dv rv : Nat} (h : voteTally D rows = some (vs, dv, rv)) :
    vs = (List.range D).map fun i =>
      (demShare rows (i + 1), repShare rows (i + 1)) := by
  obtain ⟨hlen, _, _, hcell⟩ := voteTally_parts h
  apply List.ext_getElem?
  intro n
  by_cases hn : n < D
  · have := hcell (n + 1) (by omega) (by omega)
    simp only [Nat.add_sub_cancel] at this
    rw [this, List.getElem?_map, List.getElem?_range hn]
    rfl
  · have h1 : vs[n]? = none := by
      rw [List.getElem?_eq_none_iff]; omega
    have h2 : ((List.range D).map fun i =>
        (demShare rows (i + 1), repShare rows (i + 1)))[n]? = none := by
      rw [List.getElem?_eq_none_iff]; simp; omega
    rw [h1, h2]

theorem demCount_eq_spec {D : Nat} {rows : List Row} {vs : List (ℚ × ℚ)}
    {dv rv : Nat} (h : voteTally D rows = some (vs, dv, rv)) :
    (vs.filter fun cc => decide (cc.2 ≤ cc.1)).length =
      demSeatsSpec rows D := by
  rw [voteTally_vs_eq h, List.filter_map, List.length_map]
  rfl

end Partisan

namespace Partisan

theorem drawYear_ok {nd : List (String × Nat)} {hd : List Row}
    {yc : List (Int × String)} {state : String} {year : Int}
    {c : YearCurve} (h : drawYear nd hd yc state year = .ok c) :
    ∃ D, List.lookup state nd = some D ∧
      processVotes D year yc (filterRows hd state year) = .ok c := by
  cases hl : List.lookup state nd with
  | none => rw [drawYear, hl] at h; cases h
  | some D =>
    rw [drawYear, hl] at h
    exact ⟨D, rfl, h⟩

theorem processVotes_ok {D : Nat} {year : Int} {yc : List (Int × String)}
    {rows : List Row} {c : YearCurve}
    (h : processVotes D year yc rows = .ok c) :
    ∃ vs dv rv, voteTally D rows = some (vs, dv, rv) ∧ dv + rv ≠ 0 ∧
      finishCurve D year yc vs dv rv = .ok c := by
  cases hv : voteTally D rows with
  | none => rw [processVotes, hv] at h; cases h
  | some t =>
    obtain ⟨vs, dv, rv⟩ := t
    rw [processVotes, hv] at h
    have h2 : (if dv + rv = 0 then
        (Except.error DrawError.zeroDivision : Except DrawError YearCurve)
        else finishCurve D year yc vs dv rv) = .ok c := h
    by_cases hz : dv + rv = 0
    · rw [if_pos hz] at h2; cases h2
    · rw [if_neg hz] at h2
      exact ⟨vs, dv, rv, rfl, hz, h2⟩

theorem finishCurve_ok {D : Nat} {year : Int} {yc : List (Int × String)}
    {vs : List (ℚ × ℚ)} {dv rv : Nat} {c : YearCurve}
    (h : finishCurve D year yc vs dv rv = .ok c) :
    (vs.filter fun cc => decide (cc.2 ≤ cc.1)).length ≠ 0 ∧
    ∃ col, List.lookup year yc = some col ∧
      c = mkCurve D year col vs dv rv := by
  rw [finishCurve] at h
  by_cases hcnt : (vs.filter fun cc => decide (cc.2 ≤ cc.1)).length = 0
  · rw [if_pos hcnt] at h; cases h
  · rw [if_neg hcnt] at h
    cases hcol : List.lookup year yc with
    | none => rw [hcol] at h; cases h
    | some col =>
      rw [hcol] at h
      exact ⟨hcnt, col, rfl, (Except.ok.inj h).symm⟩

theorem drawYear_ok_parts {nd : List (String × Nat)} {hd : List Row}
    {yc : List (Int × String)} {state : String} {year : Int} {D : Nat}
    {c : YearCurve} (hD : List.lookup state nd = some D)
    (h : drawYear nd hd yc state year = .ok c) :
    ∃ vs dv rv col,
      voteTally D (filterRows hd state year) = some (vs, dv, rv) ∧
      dv + rv ≠ 0 ∧
      (vs.filter fun cc => decide (cc.2 ≤ cc.1)).length ≠ 0 ∧
      List.lookup year yc = some col ∧
      c = mkCurve D year col vs dv rv := by
  obtain ⟨D', hD', hp⟩ := drawYear_ok h
  rw [hD] at hD'
  obtain rfl : D = D' := Option.some.inj hD'
  obtain ⟨vs, dv, rv, hvt, hnz, hf⟩ := processVotes_ok hp
  obtain ⟨hcnt, col, hcol, hc⟩ := finishCurve_ok hf
  exact ⟨vs, dv, rv, col, hvt, hnz, hcnt, hcol, hc⟩

theorem mkCurve_sortedMargins (D : Nat) (year : Int) (col : String)
    (vs : List (ℚ × ℚ)) (dv rv : Nat) :
    (mkCurve D year col vs dv rv).sortedMargins =
      extrapolatedSorted vs (actualMarginQ dv rv) := rfl

theorem mkCurve_partisanBias (D : Nat) (year : Int) (col : String)
    (vs : List (ℚ × ℚ)) (dv rv : Nat) :
    (mkCurve D year col vs dv rv).partisanBias =
      partisanBiasScan D 0
        (extrapolatedSorted vs (actualMarginQ dv rv)) 0 := rfl

theorem mkCurve_demSeats (D : Nat) (year : Int) (col : String)
    (vs : List (ℚ × ℚ)) (dv rv : Nat) :
    (mkCurve D year col vs dv rv).demSeats =
      (vs.filter fun cc => decide (cc.2 ≤ cc.1)).length := rfl

theorem mkCurve_label (D : Nat) (year : Int) (col : String)
    (vs : List (ℚ × ℚ)) (dv rv : Nat) :
    (mkCurve D year col vs dv rv).label =
      toString year ++ "; D" ++
        sign (pyRound ((mkCurve D year col vs dv rv).partisanBias * 100))
        ++ " partisan bias" := rfl

end Partisan

namespace Partisan

theorem drawYear_eq_processVotes {nd : List (String × Nat)} {hd : List Row}
    {yc : List (Int × String)} {state : String} {year : Int} {D : Nat}
    (hD : List.lookup state nd = some D) :
    drawYear nd hd yc state year =
      processVotes D year yc (filterRows hd state year) := by
  rw [drawYear, hD]

theorem processVotes_eq_finish {D : Nat} {year : Int}
    {yc : List (Int × String)} {rows : List Row} {vs : List (ℚ × ℚ)}
    {dv rv : Nat} (hvt : voteTally D rows = some (vs, dv, rv))
    (hnz : dv + rv ≠ 0) :
    processVotes D year yc rows = finishCurve D year yc vs dv rv := by
  rw [processVotes, hvt]
  exact if_neg hnz

theorem processVotes_eq_zeroDivision {D : Nat} {year : Int}
    {yc : List (Int × String)} {rows : List Row} {vs : List (ℚ × ℚ)}
    {dv rv : Nat} (hvt : voteTally D rows = some (vs, dv, rv))
    (hz : dv + rv = 0) :
    processVotes D year yc rows = .error .zeroDivision := by
  rw [processVotes, hvt]
  exact if_pos hz

/-- C1: for every state `s` with `StateDistrictCount[s] = D` and every
rendered year, the sorted extrapolated-margin sequence built by `draw`
has exactly `D + 2` entries (one per district plus the two sentinels),
every entry lies in `[-1, 1]`, the sequence is non-decreasing, its first
value is `-1` and its last value is `+1`. -/
theorem sorted_margin_sequence_shape (nd : List (String × Nat))
    (hd : List Row) (yc : List (Int × String)) (state : String)
    (year : Int) (D : Nat) (c : YearCurve)
    (hD : List.lookup state nd = some D)
    (hok : drawYear nd hd yc state year = .ok c) :
    c.sortedMargins.length = D + 2 ∧
    c.sortedMargins.Sorted (· ≤ ·) ∧
    (∀ m ∈ c.sortedMargins, -1 ≤ m ∧ m ≤ 1) ∧
    c.sortedMargins.head? = some (-1) ∧
    c.sortedMargins.getLast? = some 1 := by
  obtain ⟨vs, dv, rv, col, hvt, _, _, _, hc⟩ := drawYear_ok_parts hD hok
  obtain ⟨hlen, -, -, -⟩ := voteTally_parts hvt
  subst hc
  rw [mkCurve_sortedMargins]
  exact ⟨by rw [extrapolatedSorted_length, hlen],
    extrapolatedSorted_sorted _ _,
    mem_extrapolatedSorted_bounds _ _,
    extrapolatedSorted_head _ _,
    extrapolatedSorted_getLast _ _⟩

theorem sorted_margin_sequence_shape_witness :
    List.lookup "CA" exNd = some 2 ∧
    drawYear exNd exRows exColors "CA" 1976 = .ok exCurve ∧
    (exCurve.sortedMargins.length = 2 + 2 ∧
     exCurve.sortedMargins.Sorted (· ≤ ·) ∧
     (∀ m ∈ exCurve.sortedMargins, -1 ≤ m ∧ m ≤ 1) ∧
     exCurve.sortedMargins.head? = some (-1) ∧
     exCurve.sortedMargins.getLast? = some 1) :=
  ⟨by decide, by with_unfolding_all rfl,
    sorted_margin_sequence_shape exNd exRows exColors "CA" 1976 2 exCurve
      (by decide) (by with_unfolding_all rfl)⟩

/-- C9: in every `draw` call that reaches the bias computation, the
sorted margin sequence contains at least one value `≥ 0` (the clipped
`+1` sentinel), so the scan for the first index with margin `≥ 0` always
finds one and the partisan-bias value is well-defined. -/
theorem bias_scan_always_finds (nd : List (String × Nat)) (hd : List Row)
    (yc : List (Int × String)) (state : String) (year : Int)
    (c : YearCurve) (hok : drawYear nd hd yc state year = .ok c) :
    (∃ m ∈ c.sortedMargins, 0 ≤ m) ∧
    (c.sortedMargins.findIdx fun m => decide (0 ≤ m)) <
      c.sortedMargins.length := by
  obtain ⟨D, hD, hp⟩ := drawYear_ok hok
  obtain ⟨vs, dv, rv, hvt, hnz, hf⟩ := processVotes_ok hp
  obtain ⟨-, col, -, hc⟩ := finishCurve_ok hf
  subst hc
  rw [mkCurve_sortedMargins]
  have h1 : (1 : ℚ) ∈ extrapolatedSorted vs (actualMarginQ dv rv) :=
    one_mem_extrapolatedSorted _ _
  refine ⟨⟨1, h1, by norm_num⟩, ?_⟩
  exact List.findIdx_lt_length_of_exists
    ⟨1, h1, decide_eq_true (by norm_num)⟩

theorem bias_scan_always_finds_witness :
    drawYear exNd exRows exColors "CA" 1976 = .ok exCurve ∧
    ((∃ m ∈ exCurve.sortedMargins, 0 ≤ m) ∧
     (exCurve.sortedMargins.findIdx fun m => decide (0 ≤ m)) <
       exCurve.sortedMargins.length) :=
  ⟨by with_unfolding_all rfl,
    bias_scan_always_finds exNd exRows exColors "CA" 1976 exCurve
      (by with_unfolding_all rfl)⟩

/-- C3: for every rendered (state, year), the partisan bias of the legend
label is `(k - 1) / D - 0.5` where `k` is the smallest index of the
sorted margin sequence whose margin is `≥ 0`; the label reports it as a
rounded percentage through `sign`, which prefixes nonnegative numbers
with `+`: `sign 3 = "+3"`, `sign (-2) = "-2"`, `sign 0 = "+0"`. -/
theorem partisan_bias_legend (nd : List (String × Nat)) (hd : List Row)
    (yc : List (Int × String)) (state : String) (year : Int) (D : Nat)
    (c : YearCurve) (hD : List.lookup state nd = some D)
    (hok : drawYear nd hd yc state year = .ok c) :
    c.partisanBias =
      (((c.sortedMargins.findIdx fun m => decide (0 ≤ m)) : ℚ) - 1) /
        (D : ℚ) - 1 / 2 ∧
    c.label = toString year ++ "; D" ++
      sign (pyRound (c.partisanBias * 100)) ++ " partisan bias" ∧
    sign 3 = "+3" ∧ sign (-2) = "-2" ∧ sign 0 = "+0" := by
  obtain ⟨vs, dv, rv, col, hvt, hnz, hcnt, hcol, hc⟩ :=
    drawYear_ok_parts hD hok
  subst hc
  have hex : ∃ m ∈ extrapolatedSorted vs (actualMarginQ dv rv), 0 ≤ m :=
    ⟨1, one_mem_extrapolatedSorted _ _, by norm_num⟩
  refine ⟨?_, mkCurve_label .., by decide, by decide, by decide⟩
  rw [mkCurve_partisanBias, mkCurve_sortedMargins,
    partisanBiasScan_eq_findIdx D _ 0 0 hex]
  norm_num

theorem partisan_bias_legend_witness :
    List.lookup "CA" exNd = some 2 ∧
    drawYear exNd exRows exColors "CA" 1976 = .ok exCurve ∧
    (exCurve.partisanBias =
      (((exCurve.sortedMargins.findIdx fun m => decide (0 ≤ m)) : ℚ) - 1)
        / (2 : ℚ) - 1 / 2 ∧
     exCurve.label = toString (1976 : Int) ++ "; D" ++
       sign (pyRound (exCurve.partisanBias * 100)) ++ " partisan bias" ∧
     sign 3 = "+3" ∧ sign (-2) = "-2" ∧ sign 0 = "+0") :=
  ⟨by decide, by with_unfolding_all rfl,
    partisan_bias_legend exNd exRows exColors "CA" 1976 2 exCurve
      (by decide) (by with_unfolding_all rfl)⟩

/-- C4: the sorted sequence `draw` builds is a sorted permutation of the
clipped margins in encounter order (districts `1..D`, then sentinel `-1`,
then sentinel `+1`), and it is the unique such list, so it coincides with
the output of a stable sort of that sequence; ties among equal margins
are therefore indistinguishable from keeping encounter order. -/
theorem sorted_values_eq_stable_sort (nd : List (String × Nat))
    (hd : List Row) (yc : List (Int × String)) (state : String)
    (year : Int) (D : Nat) (vs : List (ℚ × ℚ)) (dv rv : Nat)
    (c : YearCurve) (hD : List.lookup state nd = some D)
    (hvt : voteTally D (filterRows hd state year) = some (vs, dv, rv))
    (hok : drawYear nd hd yc state year = .ok c) :
    c.sortedMargins.Perm (combinedMargins vs (actualMarginQ dv rv)) ∧
    c.sortedMargins.Sorted (· ≤ ·) ∧
    ∀ l : List ℚ, l.Perm (combinedMargins vs (actualMarginQ dv rv)) →
      l.Sorted (· ≤ ·) → l = c.sortedMargins := by
  obtain ⟨vs', dv', rv', col, hvt', hnz, hcnt, hcol, hc⟩ :=
    drawYear_ok_parts hD hok
  rw [hvt] at hvt'
  simp only [Option.some.injEq, Prod.mk.injEq] at hvt'
  obtain ⟨h1, h2, h3⟩ := hvt'
  subst h1; subst h2; subst h3
  subst hc
  rw [mkCurve_sortedMargins]
  refine ⟨extrapolatedSorted_perm _ _, extrapolatedSorted_sorted _ _, ?_⟩
  intro l hlp hls
  exact List.eq_of_perm_of_sorted
    (hlp.trans (extrapolatedSorted_perm _ _).symm) hls
    (extrapolatedSorted_sorted _ _)

theorem sorted_values_eq_stable_sort_witness :
    List.lookup "CA" exNd = some 2 ∧
    voteTally 2 (filterRows exRows "CA" 1976) =
      some ([(3/5, 2/5), (2/5, 3/5)], 100, 100) ∧
    drawYear exNd exRows exColors "CA" 1976 = .ok exCurve ∧
    (exCurve.sortedMargins.Perm
      (combinedMargins [(3/5, 2/5), (2/5, 3/5)] (actualMarginQ 100 100)) ∧
     exCurve.sortedMargins.Sorted (· ≤ ·) ∧
     ∀ l : List ℚ,
       l.Perm (combinedMargins [(3/5, 2/5), (2/5, 3/5)]
         (actualMarginQ 100 100)) →
       l.Sorted (· ≤ ·) → l = exCurve.sortedMargins) :=
  ⟨by decide, by with_unfolding_all rfl, by with_unfolding_all rfl,
    sorted_values_eq_stable_sort exNd exRows exColors "CA" 1976 2
      [(3/5, 2/5), (2/5, 3/5)] 100 100 exCurve (by decide)
      (by with_unfolding_all rfl) (by with_unfolding_all rfl)⟩

end Partisan

namespace Partisan

/-- C2: for every rendered (state, year), `dem_seats` equals the number
of districts `1..D` whose democratic two-party share is at least the
republican one (ties count as democratic wins), and the year fails if
and only if no district satisfies that condition. -/
theorem dem_seats_rule (nd : List (String × Nat)) (hd : List Row)
    (yc : List (Int × String)) (state : String) (year : Int) (D : Nat)
    (vs : List (ℚ × ℚ)) (dv rv : Nat)
    (hD : List.lookup state nd = some D)
    (hvt : voteTally D (filterRows hd state year) = some (vs, dv, rv))
    (hnz : dv + rv ≠ 0) (hcol : List.lookup year yc ≠ none) :
    ((∃ e, drawYear nd hd yc state year = .error e) ↔
      demSeatsSpec (filterRows hd state year) D = 0) ∧
    ∀ c, drawYear nd hd yc state year = .ok c →
      c.demSeats = demSeatsSpec (filterRows hd state year) D := by
  have hspec := demCount_eq_spec hvt
  rw [drawYear_eq_processVotes hD, processVotes_eq_finish hvt hnz]
  by_cases hcnt : (vs.filter fun cc => decide (cc.2 ≤ cc.1)).length = 0
  · have hfc : finishCurve D year yc vs dv rv = .error .noMajority := by
      rw [finishCurve]; exact if_pos hcnt
    rw [hfc]
    refine ⟨⟨fun _ => by rw [← hspec]; exact hcnt,
      fun _ => ⟨.noMajority, rfl⟩⟩, ?_⟩
    intro c hc; cases hc
  · cases hcol2 : List.lookup year yc with
    | none => exact absurd hcol2 hcol
    | some col =>
      have hfc : finishCurve D year yc vs dv rv =
          .ok (mkCurve D year col vs dv rv) := by
        rw [finishCurve, if_neg hcnt, hcol2]
      rw [hfc]
      constructor
      · constructor
        · rintro ⟨e, he⟩; cases he
        · intro hzero
          rw [← hspec] at hzero
          exact absurd hzero hcnt
      · intro c hc
        rw [← Except.ok.inj hc, mkCurve_demSeats, hspec]

theorem dem_seats_rule_witness :
    List.lookup "CA" exNd = some 2 ∧
    voteTally 2 (filterRows exRows "CA" 1976) =
      some ([(3/5, 2/5), (2/5, 3/5)], 100, 100) ∧
    (100 + 100 ≠ 0) ∧
    List.lookup (1976 : Int) exColors ≠ none ∧
    (((∃ e, drawYear exNd exRows exColors "CA" 1976 = .error e) ↔
        demSeatsSpec (filterRows exRows "CA" 1976) 2 = 0) ∧
      ∀ c, drawYear exNd exRows exColors "CA" 1976 = .ok c →
        c.demSeats = demSeatsSpec (filterRows exRows "CA" 1976) 2) :=
  ⟨by decide, by with_unfolding_all rfl, by decide, by decide,
    dem_seats_rule exNd exRows exColors "CA" 1976 2
      [(3/5, 2/5), (2/5, 3/5)] 100 100 (by decide)
      (by with_unfolding_all rfl) (by decide) (by decide)⟩

/-- C6: for every rendered (state, year) whose filtered major-party rows
sum to zero total votes, `draw` fails at the actual-margin computation
(the `ZeroDivisionError` of the quotient) instead of producing a chart
for that state. -/
theorem zero_total_votes_fails (nd : List (String × Nat)) (hd : List Row)
    (yc : List (Int × String)) (state : String) (year : Int) (D : Nat)
    (vs : List (ℚ × ℚ)) (dv rv : Nat)
    (hD : List.lookup state nd = some D)
    (hvt : voteTally D (filterRows hd state year) = some (vs, dv, rv))
    (hz : demVotes (filterRows hd state year) +
      repVotes (filterRows hd state year) = 0) :
    drawYear nd hd yc state year = .error .zeroDivision := by
  obtain ⟨-, hdv, hrv, -⟩ := voteTally_parts hvt
  rw [drawYear_eq_processVotes hD]
  exact processVotes_eq_zeroDivision hvt (by rw [hdv, hrv]; exact hz)

theorem zero_total_votes_fails_witness :
    List.lookup "TX" exNdTx = some 1 ∧
    voteTally 1 (filterRows [] "TX" 1980) = some ([(0, 0)], 0, 0) ∧
    (demVotes (filterRows [] "TX" 1980) +
      repVotes (filterRows [] "TX" 1980) = 0) ∧
    drawYear exNdTx [] exColorsB "TX" 1980 = .error .zeroDivision :=
  ⟨by decide, by with_unfolding_all rfl, by decide,
    zero_total_votes_fails exNdTx [] exColorsB "TX" 1980 1 [(0, 0)] 0 0
      (by decide) (by with_unfolding_all rfl) (by decide)⟩

/-- C8: a district in `1..D` with no matching candidate row keeps zero
vote share for both parties, qualifies under the tie rule `0 ≥ 0`, and is
therefore counted in `dem_seats` as a democratic seat. -/
theorem absent_district_is_dem_seat (nd : List (String × Nat))
    (hd : List Row) (yc : List (Int × String)) (state : String)
    (year : Int) (D d : Nat) (c : YearCurve)
    (hD : List.lookup state nd = some D)
    (hok : drawYear nd hd yc state year = .ok c)
    (hd1 : 1 ≤ d) (hdD : d ≤ D)
    (habs : ∀ r ∈ filterRows hd state year, r.district ≠ d) :
    demShare (filterRows hd state year) d = 0 ∧
    repShare (filterRows hd state year) d = 0 ∧
    (d - 1) ∈ ((List.range D).filter fun i =>
      decide (repShare (filterRows hd state year) (i + 1) ≤
        demShare (filterRows hd state year) (i + 1))) ∧
    c.demSeats = demSeatsSpec (filterRows hd state year) D := by
  have hdem0 : demShare (filterRows hd state year) d = 0 := by
    have hnil : (filterRows hd state year).filter
        (fun r => r.district == d && r.party == "democrat") = [] := by
      rw [List.filter_eq_nil_iff]
      intro r hr
      simp only [Bool.and_eq_true, beq_iff_eq]
      exact fun hc => absurd hc.1 (habs r hr)
    unfold demShare
    rw [hnil]
    simp
  have hrep0 : repShare (filterRows hd state year) d = 0 := by
    have hnil : (filterRows hd state year).filter
        (fun r => r.district == d && r.party == "republican") = [] := by
      rw [List.filter_eq_nil_iff]
      intro r hr
      simp only [Bool.and_eq_true, beq_iff_eq]
      exact fun hc => absurd hc.1 (habs r hr)
    unfold repShare
    rw [hnil]
    simp
  have hmem : (d - 1) ∈ ((List.range D).filter fun i =>
      decide (repShare (filterRows hd state year) (i + 1) ≤
        demShare (filterRows hd state year) (i + 1))) := by
    rw [List.mem_filter]
    refine ⟨List.mem_range.mpr (by omega), ?_⟩
    rw [Nat.sub_add_cancel hd1, hdem0, hrep0]
    exact decide_eq_true le_rfl
  obtain ⟨vs, dv, rv, col, hvt, -, -, -, hc⟩ := drawYear_ok_parts hD hok
  subst hc
  rw [mkCurve_demSeats]
  exact ⟨hdem0, hrep0, hmem, demCount_eq_spec hvt⟩

theorem absent_district_is_dem_seat_witness :
    List.lookup "CA" exNd = some 2 ∧
    drawYear exNd exRowsOne exColorsB "CA" 1977 = .ok exCurveB ∧
    (1 ≤ 2) ∧ (2 ≤ 2) ∧
    (∀ r ∈ filterRows exRowsOne "CA" 1977, r.district ≠ 2) ∧
    (demShare (filterRows exRowsOne "CA" 1977) 2 = 0 ∧
     repShare (filterRows exRowsOne "CA" 1977) 2 = 0 ∧
     (2 - 1) ∈ ((List.range 2).filter fun i =>
       decide (repShare (filterRows exRowsOne "CA" 1977) (i + 1) ≤
         demShare (filterRows exRowsOne "CA" 1977) (i + 1))) ∧
     exCurveB.demSeats = demSeatsSpec (filterRows exRowsOne "CA" 1977) 2) :=
  ⟨by decide, by with_unfolding_all rfl, by decide, by decide, by decide,
    absent_district_is_dem_seat exNd exRowsOne exColorsB "CA" 1977 2 2
      exCurveB (by decide) (by with_unfolding_all rfl) (by decide)
      (by decide) (by decide)⟩

end Partisan

namespace Partisan

/-- C5: option defaults are isolated across calls — whatever explicit
option values any earlier `draw` calls passed, a later call with all
options unset resolves to the pristine default values `'k', 200, '-',
0.2, 0.6, 11`, because no call writes to the stored default list. -/
theorem draw_defaults_isolated (prior : List (List (Option Param))) :
    (drawResolve
      (prior.foldl (fun st opts => (drawResolve st opts).2)
        ⟨default_draw_values⟩)
      [none, none, none, none, none, none]).1 =
      [.str "k", .num 200, .str "-", .num 0.2, .num 0.6, .num 11] := by
  have hfold : ∀ (l : List (List (Option Param))) (st : PlotDefaults),
      l.foldl (fun st opts => (drawResolve st opts).2) st = st := by
    intro l
    induction l with
    | nil => intro st; rfl
    | cons a t ih => intro st; exact ih st
  rw [hfold]
  rfl

/-- C7 (amended): a `draw` call on a state absent from `num_districts`
fails with the `unknownState` error before any per-year curve is
computed, provided at least one year is to be rendered; the first
district-count access is inside the year loop, so with an empty year
list the call succeeds and draws nothing. -/
theorem unknown_state_fails_nonempty_years (p : PartisanPlot)
    (state : String) (hs : List.lookup state p.num_districts = none)
    (hne : p.years ≠ []) :
    draw p state = ([], some .unknownState) := by
  cases hy : p.years with
  | nil => exact absurd hy hne
  | cons y ys =>
    rw [draw, hy]
    have hdy : drawYear p.num_districts p.house_data
        ((y :: ys).zip p.colors) state y = .error .unknownState := by
      rw [drawYear, hs]
    rw [drawYears, hdy]

theorem unknown_state_fails_nonempty_years_witness :
    List.lookup "TX" exPlotYears.num_districts = none ∧
    exPlotYears.years ≠ [] ∧
    draw exPlotYears "TX" = ([], some .unknownState) :=
  ⟨by decide, by decide,
    unknown_state_fails_nonempty_years exPlotYears "TX" (by decide)
      (by decide)⟩

/-- C7 (counterexample): with an empty year list, a `draw` call on a
state that is absent from `num_districts` does not fail — the claim that
every such call fails with `UnknownStateError` is false, because the
state is only looked up inside the per-year loop body. -/
theorem unknown_state_empty_years_succeeds :
    List.lookup "TX" exPlotNoYears.num_districts = none ∧
    draw exPlotNoYears "TX" = ([], none) :=
  ⟨by decide, by with_unfolding_all rfl⟩

/-- C10: `drop_columns` is atomic on error — when the listed column
identifiers include any name not present among the current columns, the
call raises and the results table is left exactly as it was. -/
theorem drop_columns_atomic (t : HouseTable) (labels : List String)
    (h : ∃ l ∈ labels, l ∉ t.cols) :
    drop_columns t labels = (t, true) := by
  have hall : (labels.all fun l => t.cols.contains l) = false := by
    rcases h with ⟨l, hl, hnot⟩
    rw [List.all_eq_false]
    exact ⟨l, hl, by simpa using hnot⟩
  rw [drop_columns, indexDrop, hall]
  rfl

theorem drop_columns_atomic_witness :
    (∃ l ∈ ["year", "office"], l ∉ exTable.cols) ∧
    drop_columns exTable ["year", "office"] = (exTable, true) :=
  ⟨by decide,
    drop_columns_atomic exTable ["year", "office"] (by decide)⟩

end Partisan
